import Mathlib

/-!
Shallow embedding of the skyeye GCI assistant core: the radar scope
(pkg/radar/radar.go) and the SimpleRadio-Standalone client supervisor
(pkg/simpleradio). Pure fragments of the Go code are translated into
executable Lean definitions; theorems below check the specification's
claims against them.

Conventions:
- geographic coordinates and speeds are rationals; speeds are in knots;
- mission time is an integer number of seconds, with 0 standing for the
  Go zero value of time.Time (time.Time.IsZero);
- wall-clock durations in the SRS supervisor are integer nanoseconds,
  matching Go's time.Duration;
- Go errors are a small inductive type: errors.New produces a base
  message, fmt.Errorf with a %w verb wraps an inner error under a
  message, preserving the chain;
- a Go slice is an Option (List _): none is the nil slice, some []
  the non-nil empty slice.
-/

namespace Skyeye

/-- A 2D geographic point (longitude, latitude) in decimal degrees,
embedding orb.Point. -/
structure Point where
  lon : ℚ
  lat : ℚ
deriving DecidableEq, Repr

/-- The zero value orb.Point\x7b\x7d: both coordinates zero. -/
def zeroPoint : Point := ⟨0, 0⟩

/-- Modelled from the spec: spatial.IsZero (pkg/spatial is not under src/).
"A position is *zero* when both coordinates are exactly zero." -/
def IsZero (p : Point) : Bool :=
  p.lon == 0 && p.lat == 0

/-- Coalition membership, embedding coalitions.Coalition:
one of red, blue, neutral. -/
inductive Coalition where
  | red
  | blue
  | neutral
deriving DecidableEq, Repr

/-- Contact category, embedding brevity.ContactCategory. The
`aircraft` value is the "any aircraft" wildcard used as a filter. -/
inductive ContactCategory where
  | fixedWing
  | rotaryWing
  | surfaceToAirMissile
  | aircraft
deriving DecidableEq, Repr

instance : BEq ContactCategory := ⟨fun a b => decide (a = b)⟩

/-- Encyclopedia record for an aircraft, embedding the category
accessor of encyclopedia.Aircraft. -/
structure AircraftData where
  category : ContactCategory
deriving DecidableEq, Repr

/-- Identity metadata of a contact, embedding trackfiles.Labels:
stable unit ID, display name, ACMI short-name, coalition. -/
structure Labels where
  id : ℕ
  name : String
  acmiName : String
  coalition : Coalition
deriving DecidableEq, Repr

/-- A timestamped telemetry sample, embedding trackfiles.Frame:
position, altitude (meters), heading (true, degrees), acquisition
time (seconds of mission time; 0 is the Go zero time). -/
structure Frame where
  point : Point
  altitude : ℚ
  heading : ℚ
  time : ℤ
deriving DecidableEq, Repr

/-- The Go zero value of a Frame: zero point, zero time. -/
def zeroFrame : Frame := ⟨zeroPoint, 0, 0, 0⟩

/-- A trackfile, embedding trackfiles.Trackfile: a Labels record and
the time-ordered frame history, most recent first. -/
structure Trackfile where
  contact : Labels
  track : List Frame
deriving DecidableEq, Repr

/-- Modelled from the spec: Trackfile.LastKnown (pkg/trackfiles is not
under src/). "last_known(): returns the most recent frame"; on an empty
history it returns the Go zero value Frame. -/
def lastKnown (t : Trackfile) : Frame :=
  t.track.headD zeroFrame

/-- Modelled from the spec: trackfiles.NewTrackfile (pkg/trackfiles is
not under src/). "A trackfile is created on first sighting of a unit
ID": it owns the Labels record; no frame has been appended yet. -/
def NewTrackfile (labels : Labels) : Trackfile :=
  ⟨labels, []⟩

/-- Modelled from the spec: Trackfile.Update (pkg/trackfiles is not
under src/). "append(frame): inserts at the front, trims oldest beyond
retention" with the spec's retention of the 10 most recent frames. -/
def Trackfile.update (t : Trackfile) (f : Frame) : Trackfile :=
  { t with track := (f :: t.track).take 10 }

/-- isValidTrack from pkg/radar/radar.go. The speed argument stands for
Trackfile.Speed (pkg/trackfiles is not under src/), in knots; the Go
comparison Speed() > 50*unit.Knot is speed t > 50 in knots. -/
def isValidTrack (speed : Trackfile → ℚ) (t : Trackfile) : Bool :=
  let isValidPosition := !(IsZero (lastKnown t).point)
  let isAboveSpeedFilter := speed t > 50
  isValidPosition && isAboveSpeedFilter

/-- isMatch from pkg/radar/radar.go. getAircraftData stands for
encyclopedia.GetAircraftData (the compiled-in table is not under
src/): the two-valued Go lookup (data, ok) is an Option. -/
def isMatch (getAircraftData : String → Option AircraftData) (speed : Trackfile → ℚ)
    (t : Trackfile) (coalition : Coalition) (filter : ContactCategory) : Bool :=
  if t.contact.coalition ≠ coalition then
    false
  else if !(isValidTrack speed t) then
    false
  else
    match getAircraftData t.contact.acmiName with
    | none => true
    | some data => data.category == filter || filter == ContactCategory.aircraft

lemma isZero_iff (p : Point) : IsZero p = true ↔ p = zeroPoint := by
  cases p with
  | mk lon lat =>
    simp [IsZero, zeroPoint, Point.mk.injEq]

/-- Claim C1: isValidTrack t holds iff t's last-known position is not
the zero point (0,0) and its speed exceeds 50 knots; a contact at
exactly 50.0 knots is not valid and a contact at exactly (0,0) is not
valid. -/
theorem isValidTrack_iff (speed : Trackfile → ℚ) (t : Trackfile) :
    (isValidTrack speed t = true ↔
      (lastKnown t).point ≠ zeroPoint ∧ speed t > 50)
    ∧ (speed t = 50 → isValidTrack speed t = false)
    ∧ ((lastKnown t).point = zeroPoint → isValidTrack speed t = false) := by
  refine ⟨?_, ?_, ?_⟩
  · simp only [isValidTrack, Bool.and_eq_true, Bool.not_eq_true', decide_eq_true_eq]
    constructor
    · rintro ⟨h₁, h₂⟩
      refine ⟨fun hz => ?_, h₂⟩
      have hb := (isZero_iff (lastKnown t).point).mpr hz
      rw [h₁] at hb
      exact Bool.noConfusion hb
    · rintro ⟨h₁, h₂⟩
      refine ⟨?_, h₂⟩
      cases hb : IsZero (lastKnown t).point
      · rfl
      · exact absurd ((isZero_iff _).mp hb) h₁
  · intro h
    simp [isValidTrack, h]
  · intro h
    simp [isValidTrack, (isZero_iff _).mpr h]

/-- Witness for C1 at concrete inputs: a contact at exactly 50 knots is
invalid, and a contact sitting at (0,0) is invalid. -/
theorem isValidTrack_iff_witness :
    isValidTrack (fun _ => 50) ⟨⟨1, "a", "F-15C", Coalition.blue⟩, [⟨⟨30, 40⟩, 8000, 90, 0⟩]⟩ = false
    ∧ isValidTrack (fun _ => 60) ⟨⟨1, "a", "F-15C", Coalition.blue⟩, [⟨⟨0, 0⟩, 8000, 90, 0⟩]⟩ = false := by
  constructor
  · exact (isValidTrack_iff (fun _ => 50) _).2.1 rfl
  · exact (isValidTrack_iff (fun _ => 60) _).2.2 rfl

/-- Claim C2: isMatch t C F holds iff t's coalition equals C, t is a
valid track, and either t's ACMI aircraft name is absent from the
encyclopedia, or its encyclopedia category equals F, or F is the
any-aircraft wildcard. -/
theorem isMatch_iff (getAircraftData : String → Option AircraftData)
    (speed : Trackfile → ℚ) (t : Trackfile) (coalition : Coalition)
    (filter : ContactCategory) :
    isMatch getAircraftData speed t coalition filter = true ↔
      t.contact.coalition = coalition ∧ isValidTrack speed t = true ∧
        (getAircraftData t.contact.acmiName = none
          ∨ (∃ data, getAircraftData t.contact.acmiName = some data
              ∧ data.category = filter)
          ∨ filter = ContactCategory.aircraft) := by
  unfold isMatch
  by_cases hc : t.contact.coalition = coalition
  · cases hv : isValidTrack speed t with
    | false =>
      rw [if_neg (by simp [hc]), if_pos (by simp [hv])]
      simp [hv]
    | true =>
      cases hdata : getAircraftData t.contact.acmiName with
      | none =>
        rw [if_neg (by simp [hc]), if_neg (by simp [hv])]
        simp [hc]
      | some data =>
        rw [if_neg (by simp [hc]), if_neg (by simp [hv])]
        simp only [Bool.or_eq_true, beq_iff_eq]
        constructor
        · rintro (h | h)
          · exact ⟨hc, trivial, Or.inr (Or.inl ⟨data, rfl, h⟩)⟩
          · exact ⟨hc, trivial, Or.inr (Or.inr h)⟩
        · rintro ⟨-, -, (h | ⟨d, hd, hcat⟩ | h)⟩
          · exact Option.noConfusion h
          · injection hd with hdd
            exact Or.inl (by rw [hdd]; exact hcat)
          · exact Or.inr h
  · rw [if_pos hc]
    simp [hc]

/-- The bullseye store of the scope, embedding the sync.Map field
s.bullseyes: a partial map from coalition to point. The zero value of
sync.Map holds no entry. -/
def emptyBullseyes : Coalition → Option Point := fun _ => none

/-- SetBullseye from pkg/radar/radar.go: s.bullseyes.Store stores the
point under the coalition (the comparison against the current value
only drives a log line and does not affect the state). -/
def SetBullseye (bullseyes : Coalition → Option Point) (bullseye : Point)
    (coalition : Coalition) : Coalition → Option Point :=
  fun c => if c = coalition then some bullseye else bullseyes c

/-- Bullseye from pkg/radar/radar.go: Load from the map; when the
coalition is absent, return the zero value orb.Point. -/
def Bullseye (bullseyes : Coalition → Option Point) (coalition : Coalition) : Point :=
  match bullseyes coalition with
  | none => zeroPoint
  | some p => p

/-- A sequence of SetBullseye calls, applied in order to a store. -/
def applyBullseyeCalls (bullseyes : Coalition → Option Point)
    (calls : List (Point × Coalition)) : Coalition → Option Point :=
  calls.foldl (fun m pc => SetBullseye m pc.1 pc.2) bullseyes

lemma applyBullseyeCalls_miss (calls : List (Point × Coalition)) (c : Coalition)
    (bullseyes : Coalition → Option Point) (hm : bullseyes c = none)
    (h : ∀ pc ∈ calls, pc.2 ≠ c) :
    applyBullseyeCalls bullseyes calls c = none := by
  induction calls generalizing bullseyes with
  | nil => exact hm
  | cons pc rest ih =>
    refine ih _ ?_ (fun q hq => h q (List.mem_cons_of_mem pc hq))
    have hne : pc.2 ≠ c := h pc (List.mem_cons_self pc rest)
    simp only [SetBullseye]
    rw [if_neg (fun hcc => hne hcc.symm)]
    exact hm

/-- Claim C7: for a coalition for which SetBullseye was never called,
Bullseye returns the zero point (0,0); the lookup itself cannot fail. -/
theorem bullseye_unset_zero (calls : List (Point × Coalition)) (c : Coalition)
    (h : ∀ pc ∈ calls, pc.2 ≠ c) :
    Bullseye (applyBullseyeCalls emptyBullseyes calls) c = zeroPoint := by
  unfold Bullseye
  rw [applyBullseyeCalls_miss calls c emptyBullseyes rfl h]

/-- Witness for C7: after setting only the red bullseye, the blue
bullseye reads as (0,0). -/
theorem bullseye_unset_zero_witness :
    Bullseye (applyBullseyeCalls emptyBullseyes [(⟨1, 2⟩, Coalition.red)])
      Coalition.blue = zeroPoint := by
  exact bullseye_unset_zero [(⟨1, 2⟩, Coalition.red)] Coalition.blue (by decide)

/-- Claim C9: immediately after SetBullseye(p, c), Bullseye(c) returns
p (including p = (0,0)), every other coalition's bullseye is unchanged,
and a bullseye explicitly set to (0,0) reads the same as one never
set. -/
theorem setBullseye_roundtrip (bullseyes : Coalition → Option Point) (p : Point)
    (c : Coalition) :
    Bullseye (SetBullseye bullseyes p c) c = p
    ∧ (∀ c2, c2 ≠ c → Bullseye (SetBullseye bullseyes p c) c2 = Bullseye bullseyes c2)
    ∧ Bullseye (SetBullseye emptyBullseyes zeroPoint c) c = Bullseye emptyBullseyes c := by
  refine ⟨?_, ?_, ?_⟩
  · simp [Bullseye, SetBullseye]
  · intro c2 hne
    simp [Bullseye, SetBullseye, hne]
  · simp [Bullseye, SetBullseye, emptyBullseyes]

/-- Witness for C9 at concrete inputs: setting blue leaves red alone. -/
theorem setBullseye_roundtrip_witness :
    Bullseye (SetBullseye emptyBullseyes ⟨3, 4⟩ Coalition.blue) Coalition.blue = ⟨3, 4⟩
    ∧ Bullseye (SetBullseye emptyBullseyes ⟨3, 4⟩ Coalition.blue) Coalition.red
        = Bullseye emptyBullseyes Coalition.red := by
  refine ⟨(setBullseye_roundtrip emptyBullseyes ⟨3, 4⟩ Coalition.blue).1, ?_⟩
  exact (setBullseye_roundtrip emptyBullseyes ⟨3, 4⟩ Coalition.blue).2.1
    Coalition.red (by decide)

/-- A Go error value: errors.New gives a base message; fmt.Errorf with
%w wraps an inner error under a message. -/
inductive GoErr where
  | base (msg : String)
  | wrap (msg : String) (inner : GoErr)

/-- Modelled from the spec: bearings.Declination (pkg/bearings is not
under src/) evaluates the geomagnetic model at a point and mission
time; Go-style it yields the angle together with an optional error,
and on failure the angle yielded is zero ("fall back to declination =
0"). The model itself is a parameter. -/
def bearingsDeclination (model : Point → ℤ → Except GoErr ℚ) (p : Point)
    (missionTime : ℤ) : ℚ × Option GoErr :=
  match model p missionTime with
  | Except.ok v => (v, none)
  | Except.error e => (0, some e)

/-- Declination from pkg/radar/radar.go: call bearings.Declination at
the mission time; an error is only logged; the angle is returned
unconditionally. -/
def Declination (model : Point → ℤ → Except GoErr ℚ) (missionTime : ℤ)
    (p : Point) : ℚ :=
  (bearingsDeclination model p missionTime).1

/-- Claim C6: when the geomagnetic model fails at p, Declination p
returns exactly 0; when it succeeds, Declination p returns the model's
value. -/
theorem declination_fallback (model : Point → ℤ → Except GoErr ℚ)
    (missionTime : ℤ) (p : Point) :
    (∀ e, model p missionTime = Except.error e → Declination model missionTime p = 0)
    ∧ (∀ v, model p missionTime = Except.ok v → Declination model missionTime p = v) := by
  constructor
  · intro e he
    simp [Declination, bearingsDeclination, he]
  · intro v hv
    simp [Declination, bearingsDeclination, hv]

/-- Witness for C6: a model that always fails yields 0; a model that
returns 7 yields 7. -/
theorem declination_fallback_witness :
    Declination (fun _ _ => Except.error (GoErr.base "wmm failure")) 0 ⟨30, 40⟩ = 0
    ∧ Declination (fun _ _ => Except.ok 7) 0 ⟨30, 40⟩ = 7 := by
  constructor
  · exact (declination_fallback (fun _ _ => Except.error (GoErr.base "wmm failure"))
      0 ⟨30, 40⟩).1 (GoErr.base "wmm failure") rfl
  · exact (declination_fallback (fun _ _ => Except.ok 7) 0 ⟨30, 40⟩).2 7 rfl

/-- An update event, embedding sim.Updated: the contact's Labels and
the new telemetry Frame. -/
structure Updated where
  labels : Labels
  frame : Frame
deriving DecidableEq, Repr

/-- Modelled from the spec: contactDatabase.getByID (the database file
of pkg/radar is not under src/). The database is the list of live
trackfiles keyed by unit ID; get_by_id finds the trackfile with the
given ID. -/
def getByID (db : List Trackfile) (id : ℕ) : Option Trackfile :=
  db.find? (fun t => t.contact.id == id)

/-- Modelled from the spec: contactDatabase.set (the database file of
pkg/radar is not under src/): store the trackfile under its unit ID,
replacing an existing entry or inserting a new one. -/
def dbSet (db : List Trackfile) (t : Trackfile) : List Trackfile :=
  if (getByID db t.contact.id).isSome then
    db.map (fun u => if u.contact.id == t.contact.id then t else u)
  else
    db ++ [t]

/-- In-place mutation of the trackfile found for an ID, embedding the
Go call trackfile.Update(frame) on the pointer returned by getByID:
the first entry with the ID gets the frame appended; everything else
is untouched. -/
def dbUpdateFrame (db : List Trackfile) (id : ℕ) (f : Frame) : List Trackfile :=
  match db with
  | [] => []
  | t :: rest =>
    if t.contact.id == id then t.update f :: rest
    else t :: dbUpdateFrame rest id f

/-- handleUpdate from pkg/radar/radar.go: when a trackfile exists for
the unit ID, append the frame to it; otherwise create a new trackfile
from the labels and store it (the creation log is elided). -/
def handleUpdate (db : List Trackfile) (update : Updated) : List Trackfile :=
  match getByID db update.labels.id with
  | some _ => dbUpdateFrame db update.labels.id update.frame
  | none => dbSet db (NewTrackfile update.labels)

lemma getByID_cons_pos (u : Trackfile) (rest : List Trackfile) (i : ℕ)
    (h : u.contact.id = i) : getByID (u :: rest) i = some u := by
  unfold getByID
  rw [List.find?_cons_of_pos _ (by simp [h])]

lemma getByID_cons_neg (u : Trackfile) (rest : List Trackfile) (i : ℕ)
    (h : ¬ u.contact.id = i) : getByID (u :: rest) i = getByID rest i := by
  unfold getByID
  rw [List.find?_cons_of_neg _ (by simp [h])]

lemma dbUpdateFrame_cons_pos (u : Trackfile) (rest : List Trackfile) (id : ℕ)
    (f : Frame) (h : u.contact.id = id) :
    dbUpdateFrame (u :: rest) id f = u.update f :: rest := by
  simp [dbUpdateFrame, h]

lemma dbUpdateFrame_cons_neg (u : Trackfile) (rest : List Trackfile) (id : ℕ)
    (f : Frame) (h : ¬ u.contact.id = id) :
    dbUpdateFrame (u :: rest) id f = u :: dbUpdateFrame rest id f := by
  simp [dbUpdateFrame, h]

lemma update_contact (t : Trackfile) (f : Frame) :
    (t.update f).contact = t.contact := rfl

lemma getByID_dbUpdateFrame_eq (db : List Trackfile) (id : ℕ) (f : Frame)
    (t : Trackfile) (h : getByID db id = some t) :
    getByID (dbUpdateFrame db id f) id = some (t.update f) := by
  induction db with
  | nil => exact Option.noConfusion h
  | cons u rest ih =>
    by_cases hu : u.contact.id = id
    · rw [getByID_cons_pos u rest id hu] at h
      injection h with h
      subst h
      rw [dbUpdateFrame_cons_pos u rest id f hu]
      exact getByID_cons_pos (u.update f) rest id hu
    · rw [getByID_cons_neg u rest id hu] at h
      rw [dbUpdateFrame_cons_neg u rest id f hu]
      rw [getByID_cons_neg u _ id hu]
      exact ih h

lemma getByID_dbUpdateFrame_ne (db : List Trackfile) (id : ℕ) (f : Frame)
    (i : ℕ) (hne : i ≠ id) :
    getByID (dbUpdateFrame db id f) i = getByID db i := by
  induction db with
  | nil => rfl
  | cons u rest ih =>
    by_cases hu : u.contact.id = id
    · have hui : ¬ u.contact.id = i := by
        rw [hu]
        exact fun h => hne h.symm
      rw [dbUpdateFrame_cons_pos u rest id f hu]
      rw [getByID_cons_neg (u.update f) rest i (by rwa [update_contact])]
      rw [getByID_cons_neg u rest i hui]
    · rw [dbUpdateFrame_cons_neg u rest id f hu]
      by_cases hui : u.contact.id = i
      · rw [getByID_cons_pos u _ i hui, getByID_cons_pos u rest i hui]
      · rw [getByID_cons_neg u _ i hui, getByID_cons_neg u rest i hui]
        exact ih

lemma getByID_append_single_self (db : List Trackfile) (t : Trackfile)
    (h : getByID db t.contact.id = none) :
    getByID (db ++ [t]) t.contact.id = some t := by
  induction db with
  | nil =>
    simp only [List.nil_append]
    exact getByID_cons_pos t [] t.contact.id rfl
  | cons u rest ih =>
    by_cases hu : u.contact.id = t.contact.id
    · rw [getByID_cons_pos u rest _ hu] at h
      exact Option.noConfusion h
    · rw [getByID_cons_neg u rest _ hu] at h
      rw [List.cons_append, getByID_cons_neg u _ _ hu]
      exact ih h

lemma getByID_append_single_ne (db : List Trackfile) (t : Trackfile) (i : ℕ)
    (hne : t.contact.id ≠ i) :
    getByID (db ++ [t]) i = getByID db i := by
  induction db with
  | nil =>
    simp only [List.nil_append]
    rw [getByID_cons_neg t [] i hne]
  | cons u rest ih =>
    by_cases hui : u.contact.id = i
    · rw [List.cons_append, getByID_cons_pos u _ i hui, getByID_cons_pos u rest i hui]
    · rw [List.cons_append, getByID_cons_neg u _ i hui, getByID_cons_neg u rest i hui]
      exact ih

/-- Claim C5: on an update event, when a trackfile exists for the unit
ID the new frame is appended to it and the database mapping is
otherwise unchanged; when none exists, a new trackfile built from the
update's labels is inserted, and every other ID is unaffected. -/
theorem handleUpdate_spec (db : List Trackfile) (update : Updated) :
    (∀ t, getByID db update.labels.id = some t →
       getByID (handleUpdate db update) update.labels.id = some (t.update update.frame)
       ∧ (t.update update.frame).track.head? = some update.frame
       ∧ ∀ i, i ≠ update.labels.id → getByID (handleUpdate db update) i = getByID db i)
    ∧ (getByID db update.labels.id = none →
       handleUpdate db update = db ++ [NewTrackfile update.labels]
       ∧ getByID (handleUpdate db update) update.labels.id
           = some (NewTrackfile update.labels)
       ∧ ∀ i, i ≠ update.labels.id → getByID (handleUpdate db update) i = getByID db i) := by
  constructor
  · intro t ht
    have hstep : handleUpdate db update
        = dbUpdateFrame db update.labels.id update.frame := by
      unfold handleUpdate
      rw [ht]
    refine ⟨?_, ?_, ?_⟩
    · rw [hstep]
      exact getByID_dbUpdateFrame_eq db update.labels.id update.frame t ht
    · cases t with
      | mk contact track =>
        cases track with
        | nil => rfl
        | cons a rest => rfl
    · intro i hi
      rw [hstep]
      exact getByID_dbUpdateFrame_ne db update.labels.id update.frame i hi
  · intro hnone
    have hstep : handleUpdate db update = db ++ [NewTrackfile update.labels] := by
      unfold handleUpdate
      rw [hnone]
      unfold dbSet
      rw [show getByID db (NewTrackfile update.labels).contact.id = none from hnone]
      simp
    refine ⟨hstep, ?_, ?_⟩
    · rw [hstep]
      exact getByID_append_single_self db (NewTrackfile update.labels) hnone
    · intro i hi
      rw [hstep]
      exact getByID_append_single_ne db (NewTrackfile update.labels) i
        (fun h => hi h.symm)

/-- Witness for C5 at concrete inputs: an update for an existing ID
appends the frame; an update for a fresh ID inserts a new trackfile. -/
theorem handleUpdate_spec_witness :
    getByID (handleUpdate
        [⟨⟨1, "Eagle", "F-15C", Coalition.blue⟩, [⟨⟨30, 40⟩, 8000, 90, 10⟩]⟩]
        ⟨⟨1, "Eagle", "F-15C", Coalition.blue⟩, ⟨⟨31, 40⟩, 8000, 90, 11⟩⟩) 1
      = some ⟨⟨1, "Eagle", "F-15C", Coalition.blue⟩,
          [⟨⟨31, 40⟩, 8000, 90, 11⟩, ⟨⟨30, 40⟩, 8000, 90, 10⟩]⟩
    ∧ handleUpdate ([] : List Trackfile)
        ⟨⟨2, "Viper", "F-16C", Coalition.blue⟩, ⟨⟨31, 40⟩, 8000, 90, 11⟩⟩
      = [⟨⟨2, "Viper", "F-16C", Coalition.blue⟩, []⟩] := by
  constructor
  · exact ((handleUpdate_spec
      [⟨⟨1, "Eagle", "F-15C", Coalition.blue⟩, [⟨⟨30, 40⟩, 8000, 90, 10⟩]⟩]
      ⟨⟨1, "Eagle", "F-15C", Coalition.blue⟩, ⟨⟨31, 40⟩, 8000, 90, 11⟩⟩).1
      ⟨⟨1, "Eagle", "F-15C", Coalition.blue⟩, [⟨⟨30, 40⟩, 8000, 90, 10⟩]⟩ rfl).1
  · exact ((handleUpdate_spec ([] : List Trackfile)
      ⟨⟨2, "Viper", "F-16C", Coalition.blue⟩, ⟨⟨31, 40⟩, 8000, 90, 11⟩⟩).2 rfl).1

/-- The per-trackfile condition of handleGarbageCollection from
pkg/radar/radar.go: lastSeen := LastKnown().Time; isOld when lastSeen
is before missionTime minus one minute; isNotZero when lastSeen is not
the zero time. Mission time in seconds. -/
def agedOut (missionTime : ℤ) (t : Trackfile) : Bool :=
  let lastSeen := (lastKnown t).time
  let isOld := lastSeen < missionTime - 60
  let isNotZero := !(lastSeen == 0)
  isNotZero && isOld

/-- handleGarbageCollection from pkg/radar/radar.go: iterate over a
snapshot of the database and delete every trackfile whose last frame
time is non-zero and older than missionTime minus 60 seconds. The
second component records the trackfiles handed to the removal
callback: the source invokes no callback in this handler, so it is
always empty. -/
def handleGarbageCollection (db : List Trackfile) (missionTime : ℤ) :
    List Trackfile × List Trackfile :=
  (db.filter (fun t => !(agedOut missionTime t)), [])

/-- Claim C3 (code bug): on a GC tick at mission time T+120 s, the
trackfile with id 2 last updated at T is deleted from the database as
the claim says, and trackfiles with zero or recent frame times are
kept, but the removal-callback invocation list stays empty: the source
never calls the callback that the documentation of SetRemovedCallback
promises for every aged-out trackfile. -/
theorem gc_deletes_without_removal_callback :
    (handleGarbageCollection
        [⟨⟨2, "Eagle", "F-15C", Coalition.blue⟩, [⟨⟨30, 40⟩, 8000, 90, 1000⟩]⟩]
        1120).1 = []
    ∧ (handleGarbageCollection
        [⟨⟨2, "Eagle", "F-15C", Coalition.blue⟩, [⟨⟨30, 40⟩, 8000, 90, 1000⟩]⟩]
        1120).2 = []
    ∧ (handleGarbageCollection
        [⟨⟨3, "Hornet", "FA-18C", Coalition.blue⟩, [⟨⟨30, 40⟩, 8000, 90, 0⟩]⟩]
        1120).1
      = [⟨⟨3, "Hornet", "FA-18C", Coalition.blue⟩, [⟨⟨30, 40⟩, 8000, 90, 0⟩]⟩]
    ∧ (handleGarbageCollection
        [⟨⟨4, "Viper", "F-16C", Coalition.blue⟩, [⟨⟨30, 40⟩, 8000, 90, 1100⟩]⟩]
        1120).1
      = [⟨⟨4, "Viper", "F-16C", Coalition.blue⟩, [⟨⟨30, 40⟩, 8000, 90, 1100⟩]⟩] := by
  refine ⟨?_, rfl, ?_, ?_⟩ <;> rfl

/-- Nanoseconds per second: Go durations are int64 nanoseconds. -/
def nsPerSecond : ℤ := 1000000000

/-- time.Minute as a Go duration. -/
def oneMinute : ℤ := 60 * nsPerSecond

/-- The period of the supervisor's liveness ticker in client.Run of
pkg/simpleradio/client.go: 5 seconds. -/
def supervisorTickPeriod : ℤ := 5 * nsPerSecond

/-- One wake-up of the select loop in client.Run of
pkg/simpleradio/client.go: the context is cancelled, a subtask reports
an error through errorChan, or the 5-second liveness ticker fires with
the given time since the last UDP ping. -/
inductive RunEvent where
  | ctxDone (cause : GoErr)
  | subtaskError (e : GoErr)
  | tick (sinceLastPing : ℤ)

/-- The body of the select loop in client.Run of
pkg/simpleradio/client.go: some error means Run returns with that
error; none means the loop continues. On cancellation Run wraps
ctx.Err() under fmt.Errorf; on a subtask error it wraps it under
"client error"; on a tick it returns the errors.New liveness error
exactly when time.Since(LastPing) exceeds one minute. -/
def runSelect : RunEvent → Option GoErr
  | RunEvent.ctxDone cause =>
      some (GoErr.wrap "stopping client due to context cancelation" cause)
  | RunEvent.subtaskError e => some (GoErr.wrap "client error" e)
  | RunEvent.tick sinceLastPing =>
      if sinceLastPing > oneMinute then
        some (GoErr.base "stopped receiving pings from SRS data client")
      else
        none

/-- Counterexample to C4 as stated: at a ticker check exactly 60
seconds after the last ping — a point covered by "for at least 60
seconds" — the supervisor returns no error, because the source uses
the strict comparison time.Since(LastPing) > 1*time.Minute. -/
theorem run_liveness_at_exactly_60s :
    runSelect (RunEvent.tick (60 * nsPerSecond)) = none := by
  simp [runSelect, oneMinute]

/-- Claim C4 (amended): whenever a 5-second-ticker check finds that
strictly more than 60 seconds have passed since the last UDP ping, the
supervisor returns the non-nil "stopped receiving pings" error, which
ends Run. -/
theorem run_liveness (d : ℤ) (h : d > oneMinute) :
    runSelect (RunEvent.tick d)
      = some (GoErr.base "stopped receiving pings from SRS data client") := by
  simp [runSelect, h]

/-- Witness for C4 at a concrete input: one nanosecond past the
minute, the liveness error is returned. -/
theorem run_liveness_witness :
    runSelect (RunEvent.tick (60 * nsPerSecond + 1))
      = some (GoErr.base "stopped receiving pings from SRS data client") :=
  run_liveness (60 * nsPerSecond + 1) (by norm_num [oneMinute, nsPerSecond])

/-- Claim C8: Run reports context cancellation as a wrap of the
cancellation cause under its own message, reports a subtask error as a
wrap under "client error", and the two resulting errors are never
equal, whatever the causes. -/
theorem run_errors_distinguishable (cause e : GoErr) :
    runSelect (RunEvent.ctxDone cause)
        = some (GoErr.wrap "stopping client due to context cancelation" cause)
    ∧ runSelect (RunEvent.subtaskError e) = some (GoErr.wrap "client error" e)
    ∧ GoErr.wrap "stopping client due to context cancelation" cause
        ≠ GoErr.wrap "client error" e := by
  refine ⟨rfl, rfl, ?_⟩
  intro h
  injection h with h1 h2
  exact absurd h1 (by decide)

/-- Radio modulation, embedding the modulation field of an SRS radio. -/
inductive Modulation where
  | am
  | fm
  | hq
  | disabled
deriving DecidableEq, Repr

/-- A radio of the data client's info, embedding types.Radio: raw
frequency in hertz and modulation. -/
structure Radio where
  frequency : ℚ
  modulation : Modulation
deriving DecidableEq, Repr

/-- A tuned frequency as returned by Frequencies, embedding
simpleradio.RadioFrequency. -/
structure RadioFrequency where
  frequency : ℚ
  modulation : Modulation
deriving DecidableEq, Repr

/-- The radio list of the data client's info, embedding
types.RadioInfo. -/
structure RadioInfo where
  radios : List Radio
deriving DecidableEq, Repr

/-- The data client's info, embedding the fields of types.ClientInfo
used by the SRS client queries. -/
structure ClientInfo where
  name : String
  radioInfo : RadioInfo
deriving DecidableEq, Repr

/-- unit.Hertz from martinlindhe/unit: the base frequency unit, 1. -/
def hertz : ℚ := 1

/-- Frequencies from pkg/simpleradio/client.go: start from a non-nil
empty slice (make with length 0) and append one RadioFrequency per
radio of the data client's info, in order, converting the raw value
with unit.Frequency(radio.Frequency) * unit.Hertz. Following the file
conventions, a Go slice is an Option (List _) with none for nil. -/
def Frequencies (info : ClientInfo) : Option (List RadioFrequency) :=
  some (info.radioInfo.radios.map (fun radio =>
    { frequency := radio.frequency * hertz, modulation := radio.modulation }))

/-- Claim C10: Frequencies always returns a non-nil slice holding
exactly one entry per radio of the data client's current radio list,
in the same order, each pairing the radio's frequency in hertz with
its modulation; with no radios it is the empty non-nil slice. -/
theorem frequencies_spec (info : ClientInfo) :
    Frequencies info ≠ none
    ∧ ((Frequencies info).getD []).length = info.radioInfo.radios.length
    ∧ (∀ i : ℕ, ((Frequencies info).getD [])[i]?
        = (info.radioInfo.radios[i]?).map
            (fun radio => RadioFrequency.mk radio.frequency radio.modulation))
    ∧ (info.radioInfo.radios = [] → Frequencies info = some []) := by
  refine ⟨by simp [Frequencies], by simp [Frequencies], ?_, ?_⟩
  · intro i
    simp [Frequencies, List.getElem?_map, hertz]
  · intro h
    simp [Frequencies, h]

/-- Witness for C10 at a concrete input: a client with no tuned radios
yields the non-nil empty slice. -/
theorem frequencies_spec_witness :
    Frequencies ⟨"GCI", ⟨[]⟩⟩ = some [] :=
  (frequencies_spec ⟨"GCI", ⟨[]⟩⟩).2.2.2 rfl

end Skyeye
